import Mathlib

/-!
Verification of the SBOM-TM rule-correlation and scoring core.

The Python modules `src/sbom_tm/scorer.py` and `src/sbom_tm/rule_engine.py`
are shallowly embedded below.  Loosely-typed Python values are modelled by
the inductive type `Val`; Python numbers (int and float collapsed) are
modelled by exact rationals; fallible Python code (statements that can raise
`TypeError` / `ValueError` / `AttributeError`) is modelled in `Except Unit`.
Dictionaries are modelled as association lists in insertion order with the
first binding of a key shadowing later ones (Python dictionaries have unique
keys, so the two views agree on every value that the program builds).
-/

set_option maxHeartbeats 1000000

/-- A Python value, as far as the evaluated fragment of the program needs:
`None`, booleans, numbers (int/float collapsed to an exact rational), strings,
lists (also standing in for the tuples/sets the code treats uniformly), and
string-keyed dictionaries as ordered association lists. -/
inductive Val where
  | none : Val
  | bool : Bool → Val
  | num : ℚ → Val
  | str : String → Val
  | list : List Val → Val
  | dict : List (String × Val) → Val

/-- Python `v is None`. -/
def Val.isNone : Val → Bool
  | Val.none => true
  | _ => false

/-- Sequencing of fallible statements: an exception short-circuits, exactly as
an uncaught Python exception aborts the surrounding call. -/
def eBind : Except Unit α → (α → Except Unit β) → Except Unit β
  | Except.error e, _ => Except.error e
  | Except.ok a, f => f a

/-- Python truthiness: `None`, `False`, zero, the empty string and the empty
containers are falsy, everything else is truthy. -/
def pyTruthy : Val → Bool
  | Val.none => false
  | Val.bool b => b
  | Val.num q => q != 0
  | Val.str s => s != ""
  | Val.list l => !l.isEmpty
  | Val.dict m => !m.isEmpty

/-- First binding of a key in an association-list dictionary
(`d[k]` / `d.get(k)` on a Python dict). -/
def dictGet : List (String × Val) → String → Option Val
  | [], _ => Option.none
  | (k, v) :: rest, key => if k = key then some v else dictGet rest key

/-- `d.get(k, default)` on a Python dict. -/
def getOrD (m : List (String × Val)) (key : String) (d : Val) : Val :=
  (dictGet m key).getD d

/-- `d.get(k)` on a Python dict (default `None`). -/
def getOr (m : List (String × Val)) (key : String) : Val :=
  getOrD m key Val.none

/-- Lookup with default on a string-to-rational table
(`d.get(k, default)` for a `Dict[str, float]`). -/
def lookupQ : List (String × ℚ) → String → ℚ → ℚ
  | [], _, d => d
  | (k, v) :: rest, key, d => if k = key then v else lookupQ rest key d

/-- Python `a or b` specialised to optional floats: a present non-zero float
is truthy, `None` and `0.0` fall through to the right operand. -/
def pyOrF (a b : Option ℚ) : Option ℚ :=
  match a with
  | some q => if q = 0 then b else some q
  | Option.none => b

/-- Python `a or b` on values: the left operand if truthy, else the right. -/
def pyOr (a b : Val) : Val :=
  if pyTruthy a then a else b

/-- Per-character ASCII uppercasing, Python `str.upper` on the identifiers the
program feeds it (implemented over the character list so that concrete
instances evaluate). -/
def strUpper (s : String) : String := String.mk (s.data.map Char.toUpper)

/-- Per-character ASCII lowercasing, Python `str.lower`. -/
def strLower (s : String) : String := String.mk (s.data.map Char.toLower)

/-- Code-point lexicographic comparison of character lists: the order Python
uses to compare strings. -/
def charListLt : List Char → List Char → Bool
  | [], [] => false
  | [], _ :: _ => true
  | _ :: _, [] => false
  | c :: cs, d :: ds => if c = d then charListLt cs ds else decide (c < d)

/-- Strip leading and trailing whitespace (Python `str.strip`, as applied by
`float` to its argument). -/
def trimChars (cs : List Char) : List Char :=
  ((cs.dropWhile Char.isWhitespace).reverse.dropWhile Char.isWhitespace).reverse

/-- Numeric value of a list of decimal digit characters. -/
def natOfDigits (cs : List Char) : ℕ :=
  cs.foldl (fun n c => 10 * n + (c.toNat - '0'.toNat)) 0

/-- Model of Python `float(string)` on plain decimal literals: optional
surrounding whitespace, an optional sign, an integer part and an optional
fractional part (exponent forms and `inf`/`nan` are outside the fragment the
program's data uses and are not modelled: they yield `none`). -/
def parseFloat (s : String) : Option ℚ :=
  let cs := trimChars s.data
  let signAndRest : ℚ × List Char :=
    match cs with
    | '-' :: rest => (-1, rest)
    | '+' :: rest => (1, rest)
    | _ => (1, cs)
  let sign := signAndRest.1
  let body := signAndRest.2
  let intPart := body.takeWhile Char.isDigit
  let rest := body.dropWhile Char.isDigit
  match rest with
  | [] =>
    if intPart.isEmpty then Option.none
    else some (sign * (natOfDigits intPart : ℚ))
  | '.' :: frac =>
    if frac.all Char.isDigit && !(intPart.isEmpty && frac.isEmpty) then
      some (sign * ((natOfDigits intPart : ℚ)
        + (natOfDigits frac : ℚ) / (10 : ℚ) ^ frac.length))
    else Option.none
  | _ => Option.none

/-- `str(v)` for the scalar values the program stringifies.  Container and
numeric representations are canonicalised (they only ever feed lookups keyed
by alphabetic labels, where any representation misses). -/
def pyStr : Val → String
  | Val.none => "None"
  | Val.bool true => "True"
  | Val.bool false => "False"
  | Val.num q => if q.den = 1 then toString q.num else toString q
  | Val.str s => s
  | Val.list _ => "[...]"
  | Val.dict _ => "\x7b...\x7d"

/- ===================== scorer.py ===================== -/

def EXPLOITABILITY_MAP : List (String × ℚ) :=
  [("NONE", 0), ("PROOF_OF_CONCEPT", 3/5), ("ACTIVE", 1), ("ACTIVE_EXPLOIT", 1)]

def VALUE_MAP : List (String × ℚ) :=
  [("low", 1/5), ("medium", 1/2), ("high", 1)]

def EXPOSURE_DEFAULT : ℚ := 3/10

/-- `_safe_float`: Python `float(value)` guarded by `try/except`, `none` on
`TypeError`/`ValueError` (`float` accepts numbers, booleans and parsable
strings; everything else raises). -/
def _safe_float : Val → Option ℚ
  | Val.num q => some q
  | Val.bool b => some (if b then 1 else 0)
  | Val.str s => parseFloat s
  | _ => Option.none

/-- The local `cvss` of `compute_score` after line 27:
`_safe_float(vulnerability.get("CVSS")) or vulnerability.get("cvss")`. -/
def cvss_step1 (vulnerability : List (String × Val)) : Val :=
  match _safe_float (getOr vulnerability "CVSS") with
  | some q => if q = 0 then getOr vulnerability "cvss" else Val.num q
  | Option.none => getOr vulnerability "cvss"

/-- The local `cvss` after the nested-dictionary branch of lines 28-29:
a dictionary is replaced by
`_safe_float(cvss.get("Score")) or _safe_float(cvss.get("score"))`. -/
def cvss_of (vulnerability : List (String × Val)) : Val :=
  match cvss_step1 vulnerability with
  | Val.dict m =>
    match pyOrF (_safe_float (getOrD m "Score" Val.none))
        (_safe_float (getOrD m "score" Val.none)) with
    | some q => Val.num q
    | Option.none => Val.none
  | v => v

/-- Line 30, `severity_score = (cvss or 0.0) / 10.0`: a falsy `cvss` is
replaced by `0.0`; dividing a remaining truthy string/list/dict raises
`TypeError` (a dictionary cannot reach this point: lines 28-29 replace it). -/
def severity_score (vulnerability : List (String × Val)) : Except Unit ℚ :=
  let c := cvss_of vulnerability
  if !pyTruthy c then Except.ok 0
  else
    match c with
    | Val.num q => Except.ok (q / 10)
    | Val.bool b => Except.ok ((if b then (1 : ℚ) else 0) / 10)
    | _ => Except.error ()

/-- Lines 32-33: the exploit-maturity label and its mapped exploitability. -/
def exploitability_of (vulnerability : List (String × Val)) : ℚ :=
  let exploit_maturity :=
    pyOr (getOr vulnerability "Exploitability") (getOr vulnerability "exploit_maturity")
  lookupQ EXPLOITABILITY_MAP (strUpper (pyStr (pyOr exploit_maturity (Val.str "NONE")))) 0

/-- Lines 35-36: `VALUE_MAP.get(str(context.get("value_metric","medium")).lower(), 0.5)`. -/
def asset_value_of (context : List (String × Val)) : ℚ :=
  lookupQ VALUE_MAP (strLower (pyStr (getOrD context "value_metric" (Val.str "medium")))) (1/2)

/-- Line 38, `context.get("exposure", {}).get("internet", context.get("internet_exposed"))`:
calling `.get` on a present non-dictionary `exposure` value raises
`AttributeError`. -/
def exposure_raw (context : List (String × Val)) : Except Unit Val :=
  match getOrD context "exposure" (Val.dict []) with
  | Val.dict m => Except.ok (getOrD m "internet" (getOr context "internet_exposed"))
  | _ => Except.error ()

/-- Lines 38-44: resolved exposure; `None` defaults, booleans map to 1.0/0.3,
anything else goes through bare `float(exposure)`, which raises on a
non-numeric non-parsable value. -/
def exposure_of (context : List (String × Val)) : Except Unit ℚ :=
  eBind (exposure_raw context) fun e =>
  match e with
  | Val.none => Except.ok EXPOSURE_DEFAULT
  | Val.bool b => Except.ok (if b then 1 else 3/10)
  | Val.num q => Except.ok q
  | Val.str s =>
    match parseFloat s with
    | some q => Except.ok q
    | Option.none => Except.error ()
  | _ => Except.error ()

/-- Line 46. -/
def cvss_weight (factors : List (String × ℚ)) : ℚ :=
  lookupQ factors "cvss_weight" (1/2)

/-- Lines 47-49. -/
def exploitability_weight (factors : List (String × ℚ)) : ℚ :=
  lookupQ factors "exploitability_weight" (lookupQ factors "exploit_maturity_weight" (3/10))

/-- Line 50. -/
def asset_value_weight (factors : List (String × ℚ)) : ℚ :=
  lookupQ factors "asset_value_weight" (3/20)

/-- Line 51. -/
def exposure_weight (factors : List (String × ℚ)) : ℚ :=
  lookupQ factors "exposure_weight" (1/20)

/-- Round-half-to-even to an integer, the rounding Python's `round` applies
(modelled on the exact rational value). -/
def roundHalfEven (q : ℚ) : ℤ :=
  if q - ⌊q⌋ < 1/2 then ⌊q⌋
  else if 1/2 < q - ⌊q⌋ then ⌊q⌋ + 1
  else if ⌊q⌋ % 2 = 0 then ⌊q⌋ else ⌊q⌋ + 1

/-- `round(x, 2)` on the exact rational value. -/
def round2 (q : ℚ) : ℚ := (roundHalfEven (q * 100) : ℚ) / 100

/-- `compute_score` (scorer.py lines 21-61), with the arithmetic on exact
rationals and the statements that can raise sequenced in source order. -/
def compute_score (vulnerability context : List (String × Val))
    (factors : List (String × ℚ)) (pattern_multiplier : ℚ) : Except Unit ℚ :=
  eBind (severity_score vulnerability) fun severity =>
  let exploitability := exploitability_of vulnerability
  let asset_value := asset_value_of context
  eBind (exposure_of context) fun exposure =>
  let baseline :=
    cvss_weight factors * severity
      + exploitability_weight factors * exploitability
      + asset_value_weight factors * asset_value
      + exposure_weight factors * exposure
  Except.ok (round2 (100 * min 1 (baseline * pattern_multiplier)))

/- ===================== rule_engine.py ===================== -/

/- Python `==` on values: numeric cross-kind equality (`True == 1`,
`1 == 1.0`), elementwise list equality, and dictionary equality.  Dictionary
equality is modelled pairwise in insertion order; the catalog and context
dictionaries the engine compares have unique keys in a fixed order, where the
two notions agree. -/
mutual
/-- Python `==` on scalar and container values (see the comment above). -/
def pyEq : Val → Val → Bool
  | Val.none, Val.none => true
  | Val.bool a, Val.bool b => a == b
  | Val.bool a, Val.num q => (if a then (1 : ℚ) else 0) == q
  | Val.num q, Val.bool a => q == (if a then (1 : ℚ) else 0)
  | Val.num a, Val.num b => a == b
  | Val.str a, Val.str b => a == b
  | Val.list a, Val.list b => pyEqL a b
  | Val.dict a, Val.dict b => pyEqD a b
  | _, _ => false

def pyEqL : List Val → List Val → Bool
  | [], [] => true
  | x :: xs, y :: ys => pyEq x y && pyEqL xs ys
  | _, _ => false

def pyEqD : List (String × Val) → List (String × Val) → Bool
  | [], [] => true
  | (k₁, v₁) :: xs, (k₂, v₂) :: ys => k₁ == k₂ && pyEq v₁ v₂ && pyEqD xs ys
  | _, _ => false
end

/- Python `a < b`: numbers (booleans counting as numbers) compare
numerically, strings compare by code points, lists compare lexicographically
through `==` and the original operator; any other combination raises
`TypeError`. -/
mutual
/-- Python `a < b` (see the comment above). -/
def pyLt : Val → Val → Except Unit Bool
  | Val.num a, Val.num b => Except.ok (decide (a < b))
  | Val.num a, Val.bool b => Except.ok (decide (a < if b then 1 else 0))
  | Val.bool a, Val.num b => Except.ok (decide ((if a then (1 : ℚ) else 0) < b))
  | Val.bool a, Val.bool b =>
    Except.ok (decide ((if a then (1 : ℚ) else 0) < if b then 1 else 0))
  | Val.str a, Val.str b => Except.ok (charListLt a.data b.data)
  | Val.list a, Val.list b => pyLtL a b
  | _, _ => Except.error ()

def pyLtL : List Val → List Val → Except Unit Bool
  | [], [] => Except.ok false
  | [], _ :: _ => Except.ok true
  | _ :: _, [] => Except.ok false
  | x :: xs, y :: ys => if pyEq x y then pyLtL xs ys else pyLt x y
end

/- Python `a <= b`, with the same domain as `pyLt`. -/
mutual
/-- Python `a <= b` (see the comment above). -/
def pyLe : Val → Val → Except Unit Bool
  | Val.num a, Val.num b => Except.ok (decide (a ≤ b))
  | Val.num a, Val.bool b => Except.ok (decide (a ≤ if b then 1 else 0))
  | Val.bool a, Val.num b => Except.ok (decide ((if a then (1 : ℚ) else 0) ≤ b))
  | Val.bool a, Val.bool b =>
    Except.ok (decide ((if a then (1 : ℚ) else 0) ≤ if b then 1 else 0))
  | Val.str a, Val.str b =>
    Except.ok (charListLt a.data b.data || a == b)
  | Val.list a, Val.list b => pyLeL a b
  | _, _ => Except.error ()

def pyLeL : List Val → List Val → Except Unit Bool
  | [], [] => Except.ok true
  | [], _ :: _ => Except.ok true
  | _ :: _, [] => Except.ok false
  | x :: xs, y :: ys => if pyEq x y then pyLeL xs ys else pyLe x y
end

/-- One pass of Python iteration, `list(x)` / `for item in x`: lists iterate
over their items, strings over their one-character substrings, dictionaries
over their keys; iterating anything else raises `TypeError`. -/
def pyIter : Val → Except Unit (List Val)
  | Val.list l => Except.ok l
  | Val.str s => Except.ok (s.data.map fun c => Val.str (String.mk [c]))
  | Val.dict m => Except.ok (m.map fun kv => Val.str kv.1)
  | _ => Except.error ()

/-- Substring containment on character lists (Python `needle in haystack`
for strings). -/
def isSubstrOf (needle hay : List Char) : Bool :=
  match hay with
  | [] => needle.isEmpty
  | _ :: rest => needle.isPrefixOf hay || isSubstrOf needle rest

/-- `_compare` (rule_engine.py lines 105-128).  `gte`/`lte`/`gt`/`lt` demand a
non-`None` actual value and then apply the Python comparison (which can raise
on incomparable kinds); an unrecognised operator falls through to `False`. -/
def _compare (operator : String) (actual expected : Val) : Except Unit Bool :=
  if operator = "eq" then Except.ok (pyEq actual expected)
  else if operator = "neq" then Except.ok (!pyEq actual expected)
  else if operator = "gte" then
    if actual.isNone then Except.ok false else pyLe expected actual
  else if operator = "lte" then
    if actual.isNone then Except.ok false else pyLe actual expected
  else if operator = "gt" then
    if actual.isNone then Except.ok false else pyLt expected actual
  else if operator = "lt" then
    if actual.isNone then Except.ok false else pyLt actual expected
  else if operator = "in" then
    Except.ok (match expected with
      | Val.list l => l.any fun e => pyEq actual e
      | _ => false)
  else if operator = "contains" then
    Except.ok (match actual with
      | Val.list l => l.any fun e => pyEq e expected
      | Val.str s => isSubstrOf (pyStr expected).data s.data
      | _ => false)
  else if operator = "exists" then Except.ok (!actual.isNone)
  else Except.ok false

/-- The loop of lines 84-87: every operator entry of a Simple condition's
operator-to-literal mapping must compare true; the first failing (or raising)
comparison stops the loop. -/
def compareAll : List (String × Val) → Val → Except Unit Bool
  | [], _ => Except.ok true
  | (operator, expected) :: rest, actual =>
    eBind (_compare operator actual expected) fun b =>
    if b then compareAll rest actual else Except.ok false

/-- Modelled from the spec: Python `re.search` (standard library, not part of
src/), restricted to the literal-pattern fragment — the pattern matches if it
occurs as a substring of the stringified value, case-insensitively when the
`i` flag is given.  Invalid-pattern errors are not modelled. -/
def re_search (pattern s : String) (ignoreCase : Bool) : Bool :=
  let p := if ignoreCase then strLower pattern else pattern
  let t := if ignoreCase then strLower s else s
  isSubstrOf p.data t.data

/-- Split a character list at every occurrence of a separator
(Python `str.split(sep)`: `"a..b"` gives `["a", "", "b"]`, `""` gives `[""]`). -/
def splitOnChar (c : Char) : List Char → List (List Char)
  | [] => [[]]
  | x :: xs =>
    if x = c then [] :: splitOnChar c xs
    else
      match splitOnChar c xs with
      | t :: ts => (x :: t) :: ts
      | [] => [[x]]

/-- Split at the first occurrence of a separator
(Python `str.split(sep, 1)` when the separator occurs). -/
def splitFirstAt (c : Char) : List Char → Option (List Char × List Char)
  | [] => Option.none
  | x :: xs =>
    if x = c then some ([], xs)
    else (splitFirstAt c xs).map fun p => (x :: p.1, p.2)

/-- The alias rewrite of `_dig_value` (lines 92-95): `vulnerability.*` is
rewritten to `vuln.*` and `package.*` to `component.*` before traversal
(`field.split(".", 1)[1]` keeps everything after the first dot). -/
def aliasRewrite (cs : List Char) : List Char :=
  if "vulnerability.".data.isPrefixOf cs then
    match splitFirstAt '.' cs with
    | some p => "vuln.".data ++ p.2
    | Option.none => cs
  else if "package.".data.isPrefixOf cs then
    match splitFirstAt '.' cs with
    | some p => "component.".data ++ p.2
    | Option.none => cs
  else cs

/-- The traversal loop of `_dig_value` (lines 96-102): walk the dot-separated
tokens, `.get` on dictionaries, bail out to `None` at the first non-dictionary
with tokens remaining. -/
def digTokens : Val → List (List Char) → Val
  | v, [] => v
  | Val.dict m, t :: ts => digTokens (getOr m (String.mk t)) ts
  | _, _ :: _ => Val.none

/-- `_dig_value` (lines 91-102). -/
def _dig_value (payload : Val) (field : String) : Val :=
  digTokens payload (splitOnChar '.' (aliasRewrite field.data))

/-- Modelled from the spec: `packaging.version.Version` (external dependency,
not part of src/), restricted to semantic versions — dotted non-empty runs of
decimal digits; anything else fails to parse. -/
def parseVersion (s : String) : Option (List ℕ) :=
  let parts := splitOnChar '.' s.data
  if parts.all fun p => !p.isEmpty && p.all Char.isDigit
  then some (parts.map natOfDigits)
  else Option.none

/-- Modelled from the spec: the strict order on parsed semantic versions,
componentwise with missing trailing components reading as zero. -/
def versionLt : List ℕ → List ℕ → Bool
  | [], [] => false
  | [], y :: ys => (y != 0) || versionLt [] ys
  | _ :: _, [] => false
  | x :: xs, y :: ys => x < y || (x == y && versionLt xs ys)

/-- The `missing_fields` sentinel test of line 182:
`value in (None, "", [], {})` under Python `==`. -/
def isMissingVal (v : Val) : Bool :=
  pyEq v Val.none || pyEq v (Val.str "") || pyEq v (Val.list []) || pyEq v (Val.dict [])

/-- The `exists`/`not_exists` sentinel test of lines 194 and 200:
`value in (None, "")` under Python `==`. -/
def isAbsentVal (v : Val) : Bool :=
  pyEq v Val.none || pyEq v (Val.str "")

/-- The condition-evaluation recursion needs that a value found in a
dictionary is structurally smaller than the dictionary's entry list. -/
theorem sizeOf_dictGet (m : List (String × Val)) (key : String) (v : Val)
    (h : dictGet m key = some v) : sizeOf v < sizeOf m := by
  induction m with
  | nil => simp [dictGet] at h
  | cons kv rest ih =>
    obtain ⟨k, w⟩ := kv
    unfold dictGet at h
    by_cases hk : k = key
    · simp [hk] at h
      subst h
      simp
      omega
    · simp [hk] at h
      have := ih h
      simp
      omega

/-- `_condition_matches` specialised to the string items obtained by iterating
a non-list `subconditions` value in the `and` branch (iterating a string
yields its characters, a dictionary its keys): a falsy item matches
vacuously, evaluating a truthy non-dictionary item raises. -/
def atomAll : List Val → Except Unit Bool
  | [] => Except.ok true
  | v :: rest => if !pyTruthy v then atomAll rest else Except.error ()

mutual
/-- `_condition_matches` (rule_engine.py lines 76-88): a falsy condition
matches; a dictionary with a `match_type` key dispatches to the complex
evaluator; otherwise the first key-value pair is read, an operator mapping is
AND-folded via `_compare`, and a plain literal compares with `==`.  Evaluating
a truthy non-dictionary condition raises (`"match_type" in condition` /
`condition.items()` on such a value). -/
def _condition_matches (condition context : Val) : Except Unit Bool :=
  if !pyTruthy condition then Except.ok true
  else
    match condition with
    | Val.dict m =>
      if m.any fun kv => kv.1 == "match_type" then
        _evaluate_complex_condition m context
      else
        match m with
        | [] => Except.ok true
        | (f, value) :: _ =>
          let actual := _dig_value context f
          match value with
          | Val.dict opmap => compareAll opmap actual
          | _ => Except.ok (pyEq actual value)
    | _ => Except.error ()
termination_by sizeOf condition
decreasing_by
  simp

/-- `_evaluate_complex_condition` (rule_engine.py lines 131-202), dispatching
on the lowercased stringified `match_type`; an unrecognised match type falls
through to `False`. -/
def _evaluate_complex_condition (m : List (String × Val)) (context : Val) :
    Except Unit Bool :=
  let match_type := strLower (pyStr (getOrD m "match_type" (Val.str "")))
  if match_type = "regex" || match_type = "regex_any" then
    let pattern := getOr m "pattern"
    if !pyTruthy pattern then Except.ok false
    else
      let flags_value := getOrD m "flags" (Val.str "")
      let regex_ignorecase :=
        match flags_value with
        | Val.str s => (strLower s).data.contains 'i'
        | _ => false
      let field_list : Val :=
        if match_type = "regex_any" then getOr m "fields"
        else Val.list [getOr m "field"]
      if !pyTruthy field_list then Except.ok false
      else
        eBind (pyIter field_list) fun fields =>
        Except.ok (fields.any fun f =>
          pyTruthy f &&
            (let actual := _dig_value context (pyStr f)
             !actual.isNone && re_search (pyStr pattern) (pyStr actual) regex_ignorecase))
  else if match_type = "any_of" || match_type = "in_list" then
    let field := getOr m "field"
    let values := getOrD m "values" (Val.list [])
    if !pyTruthy field then Except.ok false
    else
      let actual := _dig_value context (pyStr field)
      if actual.isNone then Except.ok false
      else
        eBind (pyIter values) fun vs =>
        Except.ok ((vs.map pyStr).contains (pyStr actual))
  else if match_type = "version_lt_field" then
    let field := getOr m "field"
    let compare_to := getOr m "compare_to"
    if !pyTruthy field || !pyTruthy compare_to then Except.ok false
    else
      let left := _dig_value context (pyStr field)
      let right := _dig_value context (pyStr compare_to)
      if left.isNone || right.isNone then Except.ok false
      else
        match parseVersion (pyStr left), parseVersion (pyStr right) with
        | some a, some b => Except.ok (versionLt a b)
        | _, _ => Except.ok false
  else if match_type = "missing_fields" then
    eBind (pyIter (getOrD m "fields" (Val.list []))) fun fields =>
    Except.ok (fields.any fun f => isMissingVal (_dig_value context (pyStr f)))
  else if match_type = "and" then
    match h : dictGet m "subconditions" with
    | some (Val.list l) => andAll l context
    | some other => eBind (pyIter other) atomAll
    | Option.none => Except.ok true
  else if match_type = "exists" then
    let field := getOr m "field"
    if !pyTruthy field then Except.ok false
    else Except.ok (!isAbsentVal (_dig_value context (pyStr field)))
  else if match_type = "not_exists" then
    let field := getOr m "field"
    if !pyTruthy field then Except.ok false
    else Except.ok (isAbsentVal (_dig_value context (pyStr field)))
  else Except.ok false
termination_by sizeOf m
decreasing_by
  have hlt := sizeOf_dictGet m "subconditions" (Val.list l) h
  simp at hlt
  omega

/-- Python `all(_condition_matches(c, context) for c in conditions)`: the
conjunction short-circuits at the first non-match, a raised exception
propagates. -/
def andAll : List Val → Val → Except Unit Bool
  | [], _ => Except.ok true
  | c :: rest, context =>
    eBind (_condition_matches c context) fun b =>
    if b then andAll rest context else Except.ok false
termination_by l _ => sizeOf l
decreasing_by
  all_goals simp
  all_goals omega
end

/-- `ServiceContext` (context_loader.py lines 9-16). -/
structure ServiceContext where
  service : String
  environment : String
  internet_exposed : Bool
  data_class : List String
  value_metric : String
  exposure : Val

/-- `dataclasses.asdict` on a `ServiceContext`. -/
def ServiceContext.asdict (s : ServiceContext) : Val :=
  Val.dict [("service", Val.str s.service),
    ("environment", Val.str s.environment),
    ("internet_exposed", Val.bool s.internet_exposed),
    ("data_class", Val.list (s.data_class.map Val.str)),
    ("value_metric", Val.str s.value_metric),
    ("exposure", s.exposure)]

/-- `Rule` (rule_engine.py lines 13-22).  `description` is kept as a raw
value: the loader's `title or description or ""` can leave a non-string
there. -/
structure Rule where
  id : String
  description : Val
  conditions : List Val
  result : Val
  score_factors : Val
  severity : Val
  last_updated : Val
  metadata : Val

/-- The evaluation context built by `RuleEngine.evaluate` (lines 53-58). -/
def evalContext (component vulnerability : Val) (service : Option ServiceContext)
    (threatintel : Val) : Val :=
  Val.dict [("component", component), ("vuln", vulnerability),
    ("context", match service with
      | some s => s.asdict
      | Option.none => Val.dict []),
    ("threatintel", if pyTruthy threatintel then threatintel else Val.dict [])]

/-- `rule.result.get(key, default)` as used when a hypothesis is yielded
(lines 65-68); `.get` on a non-dictionary `result` raises. -/
def resultGet (result : Val) (key : String) (d : Val) : Except Unit Val :=
  match result with
  | Val.dict m => Except.ok (getOrD m key d)
  | _ => Except.error ()

/-- The hypothesis dictionary yielded for a matching rule (lines 62-73). -/
def mkHypothesis (rule : Rule) : Except Unit Val :=
  eBind (resultGet rule.result "pattern" (Val.list [])) fun pattern =>
  eBind (resultGet rule.result "objective" (Val.list [])) fun objective =>
  eBind (resultGet rule.result "recommendations" (Val.list [])) fun recommendations =>
  eBind (resultGet rule.result "pattern_multiplier" (Val.num 1)) fun multiplier =>
  Except.ok (Val.dict [("rule_id", Val.str rule.id),
    ("description", rule.description),
    ("pattern", pattern),
    ("objective", objective),
    ("recommendations", recommendations),
    ("pattern_multiplier", multiplier),
    ("score_factors", rule.score_factors),
    ("rule_severity", rule.severity),
    ("rule_metadata", rule.metadata),
    ("last_updated", rule.last_updated)])

/-- The loop of `RuleEngine.evaluate` (lines 60-73) over a fixed context: a
rule whose full condition list matches contributes its hypothesis; the lazy
generator is modelled as the eagerly collected list of yielded values, with an
exception aborting the remainder. -/
def evalRules : List Rule → Val → Except Unit (List Val)
  | [], _ => Except.ok []
  | r :: rest, context =>
    eBind (andAll r.conditions context) fun matched =>
    if matched then
      eBind (mkHypothesis r) fun h =>
      eBind (evalRules rest context) fun tail =>
      Except.ok (h :: tail)
    else evalRules rest context

/-- `RuleEngine.evaluate` (rule_engine.py lines 46-73). -/
def RuleEngine.evaluate (rules : List Rule) (component vulnerability : Val)
    (service : Option ServiceContext) (threatintel : Val) : Except Unit (List Val) :=
  evalRules rules (evalContext component vulnerability service threatintel)

/-- `_build_rule_from_entry` (rule_engine.py lines 205-253): `Except.ok none`
models the `return None` drops (missing or falsy id, `enabled is False`,
missing conditions). -/
def _build_rule_from_entry (entry : List (String × Val)) : Except Unit (Option Rule) :=
  let rule_id := pyOr (getOr entry "id") (getOr entry "rule_id")
  if !pyTruthy rule_id then Except.ok Option.none
  else
    match getOr entry "enabled" with
    | Val.bool false => Except.ok Option.none
    | _ =>
      let title := getOr entry "title"
      let description := getOr entry "description"
      let rule_description : Val :=
        if pyTruthy title && pyTruthy description then
          Val.str (pyStr title ++ ": " ++ pyStr description)
        else pyOr title (pyOr description (Val.str ""))
      let conditions_entry := getOr entry "conditions"
      let raw_conditions :=
        if !pyTruthy conditions_entry && pyTruthy (getOr entry "condition") then
          Val.list [getOr entry "condition"]
        else conditions_entry
      if !pyTruthy raw_conditions then Except.ok Option.none
      else
        eBind (pyIter raw_conditions) fun conditions =>
        let result_entry := pyOr (getOr entry "result") (Val.dict [])
        let result : Val :=
          if pyTruthy result_entry then result_entry
          else
            let tags := pyOr (getOr entry "tags") (Val.list [])
            let remediation := getOr entry "remediation"
            let recommendations : Val :=
              if pyTruthy remediation then
                Val.list [Val.dict [("type", Val.str "remediation"), ("detail", remediation)]]
              else Val.list []
            Val.dict [("pattern", if pyTruthy tags then tags else Val.list [rule_id]),
              ("objective", getOrD entry "objective" (Val.list [])),
              ("recommendations", recommendations),
              ("pattern_multiplier", getOrD entry "pattern_multiplier" (Val.num 1))]
        Except.ok (some
          ⟨pyStr rule_id, rule_description, conditions, result,
            getOrD entry "score_factors" (Val.dict []),
            getOr entry "severity", getOr entry "last_updated",
            Val.dict [("scope", getOr entry "scope"), ("tags", getOr entry "tags"),
              ("remediation", getOr entry "remediation")]⟩)

/-- The per-entry loop of `RuleEngine.from_directory` (lines 38-41), over the
already-parsed entry dictionaries in file-sort-then-in-file order: entries
built to `none` are dropped, built rules are appended in order. -/
def rulesFromEntries : List Val → Except Unit (List Rule)
  | [] => Except.ok []
  | e :: rest =>
    eBind (match e with
      | Val.dict m => _build_rule_from_entry m
      | _ => Except.error ()) fun r =>
    eBind (rulesFromEntries rest) fun tail =>
    Except.ok (match r with
      | some rule => rule :: tail
      | Option.none => tail)

/-- Loading a catalog of entries and evaluating every loaded rule against one
(component, vulnerability, service, threat-intel) input. -/
def runCatalog (entries : List Val) (component vulnerability : Val)
    (service : Option ServiceContext) (threatintel : Val) : Except Unit (List Val) :=
  eBind (rulesFromEntries entries) fun rules =>
  RuleEngine.evaluate rules component vulnerability service threatintel

/- ===================== general lemmas ===================== -/

theorem eBind_ok (a : α) (f : α → Except Unit β) : eBind (Except.ok a) f = f a := rfl

theorem eBind_pure (x : Except Unit α) : eBind x Except.ok = x := by
  cases x <;> rfl

theorem roundHalfEven_intCast (n : ℤ) : roundHalfEven (n : ℚ) = n := by
  unfold roundHalfEven
  norm_num

theorem le_roundHalfEven (q : ℚ) (n : ℤ) (h : (n : ℚ) ≤ q) : n ≤ roundHalfEven q := by
  have hfl : n ≤ ⌊q⌋ := Int.le_floor.mpr h
  unfold roundHalfEven
  split_ifs <;> omega

theorem roundHalfEven_le (q : ℚ) (n : ℤ) (h : q ≤ (n : ℚ)) : roundHalfEven q ≤ n := by
  have hfl : ⌊q⌋ ≤ n := by
    have h1 := Int.floor_le_floor h
    simpa using h1
  have hq : (⌊q⌋ : ℚ) ≤ q := Int.floor_le q
  unfold roundHalfEven
  split_ifs with h1 h2 h3
  · exact hfl
  · have hhalf : (⌊q⌋ : ℚ) + 1/2 < q := by linarith
    have hcast : (⌊q⌋ : ℚ) < (n : ℚ) := by linarith
    have := Int.cast_lt.mp hcast
    omega
  · exact hfl
  · push_neg at h1
    have hhalf : (⌊q⌋ : ℚ) + 1/2 ≤ q := by linarith
    have hcast : (⌊q⌋ : ℚ) < (n : ℚ) := by linarith
    have := Int.cast_lt.mp hcast
    omega

theorem round2_idempotent (q : ℚ) : round2 (round2 q) = round2 q := by
  unfold round2
  rw [div_mul_cancel₀ _ (by norm_num : (100 : ℚ) ≠ 0), roundHalfEven_intCast]

theorem round2_le_100 (q : ℚ) (h : q ≤ 100) : round2 q ≤ 100 := by
  unfold round2
  have h1 : q * 100 ≤ ((10000 : ℤ) : ℚ) := by push_cast; linarith
  have h2 := roundHalfEven_le (q * 100) 10000 h1
  rw [div_le_iff₀ (by norm_num : (0 : ℚ) < 100)]
  calc ((roundHalfEven (q * 100) : ℤ) : ℚ) ≤ ((10000 : ℤ) : ℚ) := by exact_mod_cast h2
    _ = 100 * 100 := by norm_num

theorem round2_nonneg (q : ℚ) (h : 0 ≤ q) : 0 ≤ round2 q := by
  unfold round2
  have h1 : ((0 : ℤ) : ℚ) ≤ q * 100 := by push_cast; linarith
  have h2 := le_roundHalfEven (q * 100) 0 h1
  exact div_nonneg (by exact_mod_cast h2) (by norm_num)

theorem compute_score_eq (v c : List (String × Val)) (f : List (String × ℚ)) (mult s e : ℚ)
    (hs : severity_score v = Except.ok s) (he : exposure_of c = Except.ok e) :
    compute_score v c f mult = Except.ok (round2 (100 * min 1
      ((cvss_weight f * s + exploitability_weight f * exploitability_of v
        + asset_value_weight f * asset_value_of c + exposure_weight f * e) * mult))) := by
  unfold compute_score
  rw [hs, he]
  rfl

theorem compute_score_ok_inv (v c : List (String × Val)) (f : List (String × ℚ)) (mult q : ℚ)
    (h : compute_score v c f mult = Except.ok q) :
    ∃ s e, severity_score v = Except.ok s ∧ exposure_of c = Except.ok e ∧
      q = round2 (100 * min 1
        ((cvss_weight f * s + exploitability_weight f * exploitability_of v
          + asset_value_weight f * asset_value_of c + exposure_weight f * e) * mult)) := by
  unfold compute_score at h
  cases hs : severity_score v with
  | error u => rw [hs] at h; simp [eBind] at h
  | ok s =>
    rw [hs] at h
    cases he : exposure_of c with
    | error u => rw [he] at h; simp [eBind] at h
    | ok e =>
      rw [he] at h
      simp only [eBind, Except.ok.injEq] at h
      exact ⟨s, e, rfl, rfl, h.symm⟩

theorem exploitability_of_nonneg (v : List (String × Val)) : 0 ≤ exploitability_of v := by
  unfold exploitability_of EXPLOITABILITY_MAP
  simp only [lookupQ]
  split_ifs <;> norm_num

theorem asset_value_of_nonneg (c : List (String × Val)) : 0 ≤ asset_value_of c := by
  unfold asset_value_of VALUE_MAP
  simp only [lookupQ]
  split_ifs <;> norm_num

/- ===================== claims: scorer ===================== -/

/-- C5: on the spec's scenario-1 input — vulnerability `cvss 8.0` with
`exploit_maturity PROOF_OF_CONCEPT`, context `value_metric high` with internet
exposure 1.0, the explicit default weights and pattern multiplier 1.2 —
`compute_score` returns exactly 93.6. -/
theorem C5_scenario_poc_high_exposure :
    compute_score
      [("cvss", Val.num 8), ("exploit_maturity", Val.str "PROOF_OF_CONCEPT")]
      [("value_metric", Val.str "high"), ("exposure", Val.dict [("internet", Val.num 1)])]
      [("cvss_weight", 1/2), ("exploitability_weight", 3/10),
       ("asset_value_weight", 3/20), ("exposure_weight", 1/20)]
      (6/5) = Except.ok (93.6 : ℚ) := by
  simp [compute_score, severity_score, cvss_of, cvss_step1, _safe_float, getOr, getOrD,
    dictGet, exploitability_of, asset_value_of, exposure_raw, exposure_of, pyOr, pyOrF,
    pyTruthy, pyStr, strUpper, strLower, lookupQ, EXPLOITABILITY_MAP, VALUE_MAP,
    EXPOSURE_DEFAULT, cvss_weight, exploitability_weight, asset_value_weight,
    exposure_weight, round2, roundHalfEven, eBind, min_def]
  norm_num [Int.fract]

/-- C1 (counterexample): `compute_score` is not bounded below by 0 on
well-formed input.  On the empty vulnerability, empty context and empty
factors — all schema-conformant — with pattern multiplier -1.0 (a float, as
the signature admits), the score is -9.0, outside [0,100]: the code clamps
only from above with `min(1, ...)`. -/
theorem C1_counterexample_negative_score :
    compute_score [] [] [] (-1) = Except.ok (-9) ∧ ((-9 : ℚ) < 0) := by
  constructor
  · simp [compute_score, severity_score, cvss_of, cvss_step1, _safe_float, getOr, getOrD,
      dictGet, exploitability_of, asset_value_of, exposure_raw, exposure_of, pyOr, pyOrF,
      pyTruthy, pyStr, strUpper, strLower, lookupQ, EXPLOITABILITY_MAP, VALUE_MAP,
      EXPOSURE_DEFAULT, cvss_weight, exploitability_weight, asset_value_weight,
      exposure_weight, round2, roundHalfEven, eBind, min_def]
    norm_num [Int.fract]
  · norm_num

/-- C1 (amended): whenever `compute_score` returns a value, that value is a
fixed point of rounding to two decimals and is at most 100; it is moreover
at least 0 — hence in [0,100] — whenever the resolved severity and exposure,
the four weights and the pattern multiplier are all nonnegative (as with
empty `factors`/`context` and nonnegative cvss), the exploitability and
asset-value factors being nonnegative by construction. -/
theorem C1_score_range_amended :
    (∀ (v c : List (String × Val)) (f : List (String × ℚ)) (mult q : ℚ),
      compute_score v c f mult = Except.ok q → round2 q = q ∧ q ≤ 100) ∧
    (∀ (v c : List (String × Val)) (f : List (String × ℚ)) (mult q s e : ℚ),
      compute_score v c f mult = Except.ok q →
      severity_score v = Except.ok s → exposure_of c = Except.ok e →
      0 ≤ s → 0 ≤ e → 0 ≤ cvss_weight f → 0 ≤ exploitability_weight f →
      0 ≤ asset_value_weight f → 0 ≤ exposure_weight f → 0 ≤ mult → 0 ≤ q) := by
  constructor
  · intro v c f mult q h
    obtain ⟨s, e, hs, he, hq⟩ := compute_score_ok_inv v c f mult q h
    subst hq
    refine ⟨round2_idempotent _, round2_le_100 _ ?_⟩
    have hmin : min 1 ((cvss_weight f * s + exploitability_weight f * exploitability_of v
        + asset_value_weight f * asset_value_of c + exposure_weight f * e) * mult) ≤ 1 :=
      min_le_left _ _
    linarith
  · intro v c f mult q s e h hs he h0s h0e h0cw h0ew h0aw h0xw h0m
    obtain ⟨s', e', hs', he', hq⟩ := compute_score_ok_inv v c f mult q h
    rw [hs] at hs'
    rw [he] at he'
    injection hs' with hss
    injection he' with hee
    subst hss
    subst hee
    subst hq
    apply round2_nonneg
    have hb : 0 ≤ cvss_weight f * s + exploitability_weight f * exploitability_of v
        + asset_value_weight f * asset_value_of c + exposure_weight f * e := by
      have e1 := exploitability_of_nonneg v
      have e2 := asset_value_of_nonneg c
      have m1 := mul_nonneg h0cw h0s
      have m2 := mul_nonneg h0ew e1
      have m3 := mul_nonneg h0aw e2
      have m4 := mul_nonneg h0xw h0e
      linarith
    have hbm : 0 ≤ (cvss_weight f * s + exploitability_weight f * exploitability_of v
        + asset_value_weight f * asset_value_of c + exposure_weight f * e) * mult :=
      mul_nonneg hb h0m
    have hmin : 0 ≤ min 1 ((cvss_weight f * s + exploitability_weight f * exploitability_of v
        + asset_value_weight f * asset_value_of c + exposure_weight f * e) * mult) :=
      le_min (by norm_num) hbm
    linarith

/-- C1 (witness): the amended theorem applied at the empty vulnerability,
context and factors with pattern multiplier 1, where the score is 9.0. -/
theorem C1_score_range_amended_witness :
    round2 (9 : ℚ) = 9 ∧ (9 : ℚ) ≤ 100 ∧ (0 : ℚ) ≤ 9 := by
  have hcs : compute_score [] [] [] 1 = Except.ok 9 := by
    simp [compute_score, severity_score, cvss_of, cvss_step1, _safe_float, getOr, getOrD,
      dictGet, exploitability_of, asset_value_of, exposure_raw, exposure_of, pyOr, pyOrF,
      pyTruthy, pyStr, strUpper, strLower, lookupQ, EXPLOITABILITY_MAP, VALUE_MAP,
      EXPOSURE_DEFAULT, cvss_weight, exploitability_weight, asset_value_weight,
      exposure_weight, round2, roundHalfEven, eBind, min_def]
    norm_num [Int.fract]
  have hsev : severity_score [] = Except.ok 0 := by
    simp [severity_score, cvss_of, cvss_step1, _safe_float, getOr, getOrD, dictGet, pyTruthy]
  have hexp : exposure_of [] = Except.ok (3/10) := by
    simp [exposure_of, exposure_raw, getOr, getOrD, dictGet, eBind, EXPOSURE_DEFAULT]
  obtain ⟨h1, h2⟩ := C1_score_range_amended
  have hr := h1 [] [] [] 1 9 hcs
  have hn := h2 [] [] [] 1 9 0 (3/10) hcs hsev hexp (by norm_num) (by norm_num)
    (by norm_num [cvss_weight, lookupQ]) (by norm_num [exploitability_weight, lookupQ])
    (by norm_num [asset_value_weight, lookupQ]) (by norm_num [exposure_weight, lookupQ])
    (by norm_num)
  exact ⟨hr.1, hr.2, hn⟩

/-- C4 (counterexample): `compute_score` is not total over its input domain.
On the vulnerability `{"cvss": "x"}` — a dictionary the signature
`Dict[str, Any]` admits — line 30 evaluates `"x" / 10.0` and raises
`TypeError`: the string from `vulnerability.get("cvss")` is never passed
through `_safe_float`. -/
theorem C4_counterexample_string_cvss :
    compute_score [("cvss", Val.str "x")] [] [] 1 = Except.error () := by
  simp [compute_score, severity_score, cvss_of, cvss_step1, _safe_float, getOr, getOrD,
    dictGet, pyTruthy, parseFloat, trimChars, natOfDigits, eBind]

/-- C4 (amended): `compute_score` returns a value whenever the severity and
exposure resolutions succeed (in particular whenever the cvss fields are
numeric, nested score dictionaries or absent, and the exposure data is a
dictionary of numbers, a boolean, or absent); and each missing numeric input
degrades to its documented default: severity_score 0, exploitability 0.0,
asset_value 0.5, exposure 0.3. -/
theorem C4_totality_amended :
    (∀ (v c : List (String × Val)) (f : List (String × ℚ)) (mult s e : ℚ),
      severity_score v = Except.ok s → exposure_of c = Except.ok e →
      ∃ q, compute_score v c f mult = Except.ok q) ∧
    (∀ v : List (String × Val), dictGet v "CVSS" = Option.none →
      dictGet v "cvss" = Option.none → severity_score v = Except.ok 0) ∧
    (∀ v : List (String × Val), dictGet v "Exploitability" = Option.none →
      dictGet v "exploit_maturity" = Option.none → exploitability_of v = 0) ∧
    (∀ c : List (String × Val), dictGet c "value_metric" = Option.none →
      asset_value_of c = 1/2) ∧
    (∀ c : List (String × Val), dictGet c "exposure" = Option.none →
      dictGet c "internet_exposed" = Option.none → exposure_of c = Except.ok (3/10)) := by
  refine ⟨?_, ?_, ?_, ?_, ?_⟩
  · intro v c f mult s e hs he
    exact ⟨_, compute_score_eq v c f mult s e hs he⟩
  · intro v h1 h2
    simp [severity_score, cvss_of, cvss_step1, _safe_float, getOr, getOrD, h1, h2, pyTruthy]
  · intro v h1 h2
    simp [exploitability_of, pyOr, pyTruthy, getOr, getOrD, h1, h2, pyStr, strUpper,
      EXPLOITABILITY_MAP, lookupQ]
  · intro c h
    simp [asset_value_of, getOrD, h, pyStr, strLower, VALUE_MAP, lookupQ]
  · intro c h1 h2
    simp [exposure_of, exposure_raw, getOrD, getOr, h1, h2, eBind, EXPOSURE_DEFAULT, dictGet]

/-- C4 (witness): the amended theorem applied at the empty vulnerability and
context, where every default fires and the call succeeds. -/
theorem C4_totality_amended_witness :
    (∃ q, compute_score [] [] [] 1 = Except.ok q) ∧
    severity_score [] = Except.ok 0 ∧ exploitability_of [] = 0 ∧
    asset_value_of [] = 1/2 ∧ exposure_of [] = Except.ok (3/10) := by
  obtain ⟨h1, h2, h3, h4, h5⟩ := C4_totality_amended
  have hsev := h2 [] rfl rfl
  have hexp := h5 [] rfl rfl
  exact ⟨h1 [] [] [] 1 0 (3/10) hsev hexp, hsev, h3 [] rfl rfl, h4 [] rfl, hexp⟩

/- ===================== claims: rule engine ===================== -/

/-- C7: the alias rewrite makes `vulnerability.*` and `vuln.*` resolve
identically, and `package.*` and `component.*` resolve identically, in every
context; conditions over either alias therefore see the same value. -/
theorem C7_field_aliasing (p : String) (ctx : Val) :
    _dig_value ctx ("vulnerability." ++ p) = _dig_value ctx ("vuln." ++ p) ∧
    _dig_value ctx ("package." ++ p) = _dig_value ctx ("component." ++ p) := by
  constructor
  · unfold _dig_value
    rw [String.data_append "vulnerability." p, String.data_append "vuln." p]
    have hv : "vulnerability.".data = ['v','u','l','n','e','r','a','b','i','l','i','t','y','.'] := rfl
    have hu : "vuln.".data = ['v','u','l','n','.'] := rfl
    rw [hv, hu]
    simp [aliasRewrite, splitFirstAt, List.isPrefixOf]
  · unfold _dig_value
    rw [String.data_append "package." p, String.data_append "component." p]
    have hv : "package.".data = ['p','a','c','k','a','g','e','.'] := rfl
    have hu : "component.".data = ['c','o','m','p','o','n','e','n','t','.'] := rfl
    rw [hv, hu]
    simp [aliasRewrite, splitFirstAt, List.isPrefixOf]

/-- C9: a rule with an empty condition list matches every input (the AND over
zero conditions is vacuously true), so the engine yields exactly its
hypothesis; and the empty condition dictionary evaluates to true. -/
theorem C9_empty_conditions_match (r : Rule) (component vulnerability threatintel ctx : Val)
    (service : Option ServiceContext) (hcond : r.conditions = []) :
    RuleEngine.evaluate [r] component vulnerability service threatintel =
      eBind (mkHypothesis r) (fun h => Except.ok [h]) ∧
    _condition_matches (Val.dict []) ctx = Except.ok true := by
  constructor
  · cases hm : mkHypothesis r with
    | error u => simp [RuleEngine.evaluate, evalRules, hcond, andAll, eBind, hm]
    | ok hyp => simp [RuleEngine.evaluate, evalRules, hcond, andAll, eBind, hm]
  · simp [_condition_matches, pyTruthy]

/-- C9 (witness): a concrete rule with no conditions yields its hypothesis
against empty inputs, and the empty condition dictionary matches. -/
theorem C9_empty_conditions_match_witness :
    RuleEngine.evaluate [⟨"r1", Val.str "d", [], Val.dict [], Val.dict [], Val.none,
        Val.none, Val.dict []⟩] (Val.dict []) (Val.dict []) Option.none (Val.dict []) =
      eBind (mkHypothesis ⟨"r1", Val.str "d", [], Val.dict [], Val.dict [], Val.none,
        Val.none, Val.dict []⟩) (fun h => Except.ok [h]) ∧
    _condition_matches (Val.dict []) (Val.dict []) = Except.ok true :=
  C9_empty_conditions_match _ _ _ _ _ _ rfl

/-- The operator loop of a Simple condition succeeds exactly when every
operator comparison succeeds with `true`. -/
theorem compareAll_ok_true_iff (l : List (String × Val)) (actual : Val) :
    compareAll l actual = Except.ok true ↔
      ∀ p ∈ l, _compare p.1 actual p.2 = Except.ok true := by
  induction l with
  | nil => simp [compareAll]
  | cons hd tl ih =>
    obtain ⟨op, exp⟩ := hd
    simp only [compareAll]
    cases hc : _compare op actual exp with
    | error u => simp [eBind, hc]
    | ok b =>
      cases b
      · simp [eBind, hc]
      · simp [eBind, hc, ih]

/-- C10: a Simple condition whose value is an operator-to-literal mapping
holds exactly when every operator entry in the mapping compares true against
the resolved field value — the entries are AND-combined, not limited to one
key (shown for a mapping of any size, in particular more than one entry). -/
theorem C10_operator_map_conjunction (f : String) (opmap : List (String × Val)) (ctx : Val)
    (hf : f ≠ "match_type") :
    _condition_matches (Val.dict [(f, Val.dict opmap)]) ctx = Except.ok true ↔
      ∀ p ∈ opmap, _compare p.1 (_dig_value ctx f) p.2 = Except.ok true := by
  have h1 : pyTruthy (Val.dict [(f, Val.dict opmap)]) = true := by simp [pyTruthy]
  rw [_condition_matches]
  simp [h1, hf, compareAll_ok_true_iff]

/-- C10 (witness): a two-operator mapping `{eq: "HIGH", neq: "LOW"}` on field
`severity` holds against a context with severity `"HIGH"` exactly when both
comparisons hold — and both do. -/
theorem C10_operator_map_conjunction_witness :
    (_condition_matches
        (Val.dict [("severity", Val.dict [("eq", Val.str "HIGH"), ("neq", Val.str "LOW")])])
        (Val.dict [("severity", Val.str "HIGH")]) = Except.ok true ↔
      ∀ p ∈ [("eq", Val.str "HIGH"), ("neq", Val.str "LOW")],
        _compare p.1 (_dig_value (Val.dict [("severity", Val.str "HIGH")]) "severity") p.2 =
          Except.ok true) ∧
    _condition_matches
        (Val.dict [("severity", Val.dict [("eq", Val.str "HIGH"), ("neq", Val.str "LOW")])])
        (Val.dict [("severity", Val.str "HIGH")]) = Except.ok true := by
  refine ⟨C10_operator_map_conjunction _ _ _ (by decide), ?_⟩
  rw [C10_operator_map_conjunction _ _ _ (by decide)]
  intro p hp
  rcases List.mem_cons.mp hp with rfl | hp2
  · simp [_compare, pyEq, _dig_value, aliasRewrite, splitFirstAt, splitOnChar,
      digTokens, getOr, getOrD, dictGet]
  · rcases List.mem_cons.mp hp2 with rfl | hp3
    · simp [_compare, pyEq, _dig_value, aliasRewrite, splitFirstAt, splitOnChar,
        digTokens, getOr, getOrD, dictGet]
    · simp at hp3

/-- C2 (counterexample): condition evaluation can raise.  The Simple
condition `{"f": {"gte": 5}}` against a context where `f` resolves to the
string `"HIGH"` reaches `"HIGH" >= 5`, a Python `TypeError` (line 111 guards
only against `None`, not against incomparable kinds), so `evaluate` does not
return a boolean. -/
theorem C2_counterexample_gte_raises :
    _condition_matches (Val.dict [("f", Val.dict [("gte", Val.num 5)])])
      (Val.dict [("f", Val.str "HIGH")]) = Except.error () := by
  simp [_condition_matches, _dig_value, aliasRewrite, splitFirstAt, splitOnChar, digTokens,
    getOr, getOrD, dictGet, compareAll, _compare, pyTruthy, Val.isNone, pyLe, eBind]

/-- C2 (amended): an unknown operator makes `_compare` return false without
raising, and an unknown match type makes the complex evaluator return false
without raising; but evaluation as a whole is not exception-free — a known
ordered-comparison operator applied to values of incomparable kinds raises
(see the counterexample). -/
theorem C2_unknown_operator_match_type_false :
    (∀ (operator : String) (actual expected : Val),
      operator ∉ ["eq", "neq", "gte", "lte", "gt", "lt", "in", "contains", "exists"] →
      _compare operator actual expected = Except.ok false) ∧
    (∀ (m : List (String × Val)) (ctx : Val),
      strLower (pyStr (getOrD m "match_type" (Val.str ""))) ∉
        ["regex", "regex_any", "any_of", "in_list", "version_lt_field",
         "missing_fields", "and", "exists", "not_exists"] →
      _evaluate_complex_condition m ctx = Except.ok false) := by
  constructor
  · intro operator actual expected h
    simp only [List.mem_cons, List.not_mem_nil, or_false] at h
    push_neg at h
    obtain ⟨h1, h2, h3, h4, h5, h6, h7, h8, h9⟩ := h
    simp [_compare, h1, h2, h3, h4, h5, h6, h7, h8, h9]
  · intro m ctx h
    simp only [List.mem_cons, List.not_mem_nil, or_false] at h
    push_neg at h
    obtain ⟨h1, h2, h3, h4, h5, h6, h7, h8, h9⟩ := h
    rw [_evaluate_complex_condition]
    simp [h1, h2, h3, h4, h5, h6, h7, h8, h9]

/-- C2 (witness): the amended theorem at the unknown operator `"like"` and
the unknown match type `"or"`. -/
theorem C2_unknown_operator_match_type_false_witness :
    _compare "like" (Val.str "a") (Val.num 1) = Except.ok false ∧
    _evaluate_complex_condition [("match_type", Val.str "or")] (Val.dict []) =
      Except.ok false := by
  obtain ⟨h1, h2⟩ := C2_unknown_operator_match_type_false
  refine ⟨h1 "like" _ _ (by decide), h2 [("match_type", Val.str "or")] _ ?_⟩
  simp [getOrD, dictGet, pyStr, strLower]

/-- C3 (counterexample): the complex `exists` match type and the Simple
`exists` operator are not equivalent, and neither treats an empty list or
map as absent.  When the field resolves to the empty string the complex form
reads it as absent (false) while the Simple operator reads it as present
(true); when the field resolves to the empty list the complex form also
reads it as present. -/
theorem C3_counterexample_exists_divergence :
    _dig_value (Val.dict [("f", Val.str "")]) "f" = Val.str "" ∧
    _evaluate_complex_condition [("match_type", Val.str "exists"), ("field", Val.str "f")]
      (Val.dict [("f", Val.str "")]) = Except.ok false ∧
    _compare "exists" (_dig_value (Val.dict [("f", Val.str "")]) "f") Val.none =
      Except.ok true ∧
    _evaluate_complex_condition [("match_type", Val.str "exists"), ("field", Val.str "f")]
      (Val.dict [("f", Val.list [])]) = Except.ok true := by
  refine ⟨?_, ?_, ?_, ?_⟩
  · simp [_dig_value, aliasRewrite, splitFirstAt, splitOnChar, digTokens, getOr, getOrD, dictGet]
  · simp [_evaluate_complex_condition, strLower, pyStr, getOr, getOrD, dictGet, pyTruthy,
      isAbsentVal, pyEq, _dig_value, aliasRewrite, splitFirstAt, splitOnChar, digTokens]
  · simp [_compare, Val.isNone, _dig_value, aliasRewrite, splitFirstAt, splitOnChar,
      digTokens, getOr, getOrD, dictGet]
  · simp [_evaluate_complex_condition, strLower, pyStr, getOr, getOrD, dictGet, pyTruthy,
      isAbsentVal, pyEq, pyEqL, _dig_value, aliasRewrite, splitFirstAt, splitOnChar, digTokens]

/-- C3 (amended): for a non-empty field name, the complex `exists` match type
is true exactly when the resolved value is neither `None` nor the empty
string, while the Simple `exists` operator is true exactly when the value is
not `None`; the two agree whenever the resolved value is not the empty
string, and empty lists and maps count as present for both. -/
theorem C3_exists_semantics_amended (ctx : Val) (f : String) (e : Val) (hf : f ≠ "") :
    (_evaluate_complex_condition [("match_type", Val.str "exists"), ("field", Val.str f)]
        ctx = Except.ok true ↔
      (_dig_value ctx f ≠ Val.none ∧ _dig_value ctx f ≠ Val.str "")) ∧
    (_compare "exists" (_dig_value ctx f) e = Except.ok true ↔ _dig_value ctx f ≠ Val.none) ∧
    (_dig_value ctx f ≠ Val.str "" →
      _evaluate_complex_condition [("match_type", Val.str "exists"), ("field", Val.str f)]
        ctx = _compare "exists" (_dig_value ctx f) e) := by
  have habs : ∀ v : Val, isAbsentVal v = false ↔ (v ≠ Val.none ∧ v ≠ Val.str "") := by
    intro v
    cases v <;> simp [isAbsentVal, pyEq]
  have hnone : ∀ v : Val, v.isNone = false ↔ v ≠ Val.none := by
    intro v
    cases v <;> simp [Val.isNone]
  have hecc : _evaluate_complex_condition
      [("match_type", Val.str "exists"), ("field", Val.str f)] ctx =
      Except.ok (!isAbsentVal (_dig_value ctx f)) := by
    rw [_evaluate_complex_condition]
    simp [strLower, pyStr, getOr, getOrD, dictGet, pyTruthy, hf]
  have hcmp : _compare "exists" (_dig_value ctx f) e =
      Except.ok (!(_dig_value ctx f).isNone) := by
    simp [_compare]
  refine ⟨?_, ?_, ?_⟩
  · rw [hecc]
    simp only [Except.ok.injEq, Bool.not_eq_true', habs]
  · rw [hcmp]
    simp only [Except.ok.injEq, Bool.not_eq_true', hnone]
  · intro hne
    rw [hecc, hcmp]
    cases hv : _dig_value ctx f <;> simp_all [isAbsentVal, Val.isNone, pyEq]

/-- C3 (witness): the amended theorem at a context where the field resolves
to a number, where both forms agree and are true. -/
theorem C3_exists_semantics_amended_witness :
    (_evaluate_complex_condition [("match_type", Val.str "exists"), ("field", Val.str "f")]
        (Val.dict [("f", Val.num 3)]) = Except.ok true ↔
      (_dig_value (Val.dict [("f", Val.num 3)]) "f" ≠ Val.none ∧
        _dig_value (Val.dict [("f", Val.num 3)]) "f" ≠ Val.str "")) ∧
    (_compare "exists" (_dig_value (Val.dict [("f", Val.num 3)]) "f") Val.none =
        Except.ok true ↔ _dig_value (Val.dict [("f", Val.num 3)]) "f" ≠ Val.none) ∧
    (_dig_value (Val.dict [("f", Val.num 3)]) "f" ≠ Val.str "" →
      _evaluate_complex_condition [("match_type", Val.str "exists"), ("field", Val.str "f")]
        (Val.dict [("f", Val.num 3)]) =
        _compare "exists" (_dig_value (Val.dict [("f", Val.num 3)]) "f") Val.none) :=
  C3_exists_semantics_amended (Val.dict [("f", Val.num 3)]) "f" Val.none (by decide)

theorem Val.isNone_true_iff (v : Val) : v.isNone = true ↔ v = Val.none := by
  cases v <;> simp [Val.isNone]

theorem Val.isNone_false_iff (v : Val) : v.isNone = false ↔ v ≠ Val.none := by
  cases v <;> simp [Val.isNone]

/-- C6: a `version_lt_field` condition always returns a boolean (never
raises), and it returns true exactly when both the target field and the
compare-to field are present, resolve to non-absent values, both parse as
versions, and the first orders strictly before the second; an absent or
unparsable side yields false. -/
theorem C6_version_lt_field_semantics (m : List (String × Val)) (ctx : Val)
    (hmt : strLower (pyStr (getOrD m "match_type" (Val.str ""))) = "version_lt_field") :
    ∃ b, _evaluate_complex_condition m ctx = Except.ok b ∧
      (b = true ↔ (pyTruthy (getOr m "field") = true ∧
        pyTruthy (getOr m "compare_to") = true ∧
        _dig_value ctx (pyStr (getOr m "field")) ≠ Val.none ∧
        _dig_value ctx (pyStr (getOr m "compare_to")) ≠ Val.none ∧
        ∃ va vb,
          parseVersion (pyStr (_dig_value ctx (pyStr (getOr m "field")))) = some va ∧
          parseVersion (pyStr (_dig_value ctx (pyStr (getOr m "compare_to")))) = some vb ∧
          versionLt va vb = true)) := by
  rw [_evaluate_complex_condition]
  simp only [hmt]
  simp only [String.reduceEq, decide_False, Bool.or_false, Bool.false_or,
    if_false, if_true, Bool.or_self, ite_false, ite_true]
  rw [if_neg (by simp : ¬(false = true)), if_neg (by simp : ¬(false = true))]
  by_cases h1 : (!pyTruthy (getOr m "field") || !pyTruthy (getOr m "compare_to")) = true
  · rw [if_pos h1]
    refine ⟨false, rfl, ?_⟩
    simp only [Bool.or_eq_true, Bool.not_eq_true'] at h1
    apply iff_of_false (by simp)
    rintro ⟨hf, hc, -⟩
    rcases h1 with h | h <;> simp_all
  · rw [if_neg h1]
    simp only [Bool.or_eq_true, Bool.not_eq_true'] at h1
    push_neg at h1
    obtain ⟨hf, hc⟩ := h1
    simp only [ne_eq, Bool.not_eq_false] at hf hc
    by_cases h2 : ((_dig_value ctx (pyStr (getOr m "field"))).isNone ||
        (_dig_value ctx (pyStr (getOr m "compare_to"))).isNone) = true
    · rw [if_pos h2]
      refine ⟨false, rfl, ?_⟩
      simp only [Bool.or_eq_true, Val.isNone_true_iff] at h2
      apply iff_of_false (by simp)
      rintro ⟨-, -, hl, hr, -⟩
      rcases h2 with h | h <;> simp_all
    · rw [if_neg h2]
      simp only [Bool.or_eq_true, Val.isNone_true_iff] at h2
      push_neg at h2
      obtain ⟨hl, hr⟩ := h2
      cases hp1 : parseVersion (pyStr (_dig_value ctx (pyStr (getOr m "field")))) with
      | none =>
        refine ⟨false, rfl, ?_⟩
        apply iff_of_false (by simp)
        rintro ⟨-, -, -, -, va, vb, hva, -, -⟩
        simp [hp1] at hva
      | some va =>
        cases hp2 : parseVersion (pyStr (_dig_value ctx (pyStr (getOr m "compare_to")))) with
        | none =>
          refine ⟨false, rfl, ?_⟩
          apply iff_of_false (by simp)
          rintro ⟨-, -, -, -, va', vb', -, hvb, -⟩
          simp [hp2] at hvb
        | some vb =>
          refine ⟨versionLt va vb, rfl, ?_⟩
          constructor
          · intro hlt
            exact ⟨hf, hc, hl, hr, va, vb, rfl, rfl, hlt⟩
          · rintro ⟨-, -, -, -, va', vb', hva, hvb, hlt⟩
            injection hva with hva
            injection hvb with hvb
            rw [← hva, ← hvb] at hlt
            exact hlt

/-- C6 (witness): the semantics theorem at a concrete `version_lt_field`
condition comparing `"1.2"` with `"1.10"` (numerically, 2 < 10, so the
condition is true). -/
theorem C6_version_lt_field_semantics_witness :
    ∃ b, _evaluate_complex_condition
        [("match_type", Val.str "version_lt_field"), ("field", Val.str "a"),
         ("compare_to", Val.str "b")]
        (Val.dict [("a", Val.str "1.2"), ("b", Val.str "1.10")]) = Except.ok b ∧
      (b = true ↔ (pyTruthy (getOr [("match_type", Val.str "version_lt_field"),
          ("field", Val.str "a"), ("compare_to", Val.str "b")] "field") = true ∧
        pyTruthy (getOr [("match_type", Val.str "version_lt_field"), ("field", Val.str "a"),
          ("compare_to", Val.str "b")] "compare_to") = true ∧
        _dig_value (Val.dict [("a", Val.str "1.2"), ("b", Val.str "1.10")])
          (pyStr (getOr [("match_type", Val.str "version_lt_field"), ("field", Val.str "a"),
            ("compare_to", Val.str "b")] "field")) ≠ Val.none ∧
        _dig_value (Val.dict [("a", Val.str "1.2"), ("b", Val.str "1.10")])
          (pyStr (getOr [("match_type", Val.str "version_lt_field"), ("field", Val.str "a"),
            ("compare_to", Val.str "b")] "compare_to")) ≠ Val.none ∧
        ∃ va vb,
          parseVersion (pyStr (_dig_value (Val.dict [("a", Val.str "1.2"),
            ("b", Val.str "1.10")]) (pyStr (getOr [("match_type", Val.str "version_lt_field"),
              ("field", Val.str "a"), ("compare_to", Val.str "b")] "field")))) = some va ∧
          parseVersion (pyStr (_dig_value (Val.dict [("a", Val.str "1.2"),
            ("b", Val.str "1.10")]) (pyStr (getOr [("match_type", Val.str "version_lt_field"),
              ("field", Val.str "a"), ("compare_to", Val.str "b")] "compare_to")))) = some vb ∧
          versionLt va vb = true)) := by
  apply C6_version_lt_field_semantics
  simp [getOrD, dictGet, pyStr, strLower]

/-- A catalog entry with `enabled` explicitly `False` is built to `None`
(dropped), whatever else it contains. -/
theorem build_rule_disabled (m : List (String × Val))
    (h : getOr m "enabled" = Val.bool false) :
    _build_rule_from_entry m = Except.ok Option.none := by
  unfold _build_rule_from_entry
  rw [h]
  dsimp only
  split_ifs <;> rfl

/-- Dropping a disabled entry anywhere in the catalog leaves the loaded rule
list unchanged. -/
theorem rulesFromEntries_disabled (m : List (String × Val))
    (h : getOr m "enabled" = Val.bool false) (r1 r2 : List Val) :
    rulesFromEntries (r1 ++ Val.dict m :: r2) = rulesFromEntries (r1 ++ r2) := by
  induction r1 with
  | nil =>
    simp only [List.nil_append, rulesFromEntries]
    rw [build_rule_disabled m h, eBind_ok]
    exact eBind_pure _
  | cons e rest ih =>
    simp only [List.cons_append, rulesFromEntries, List.append_eq]
    rw [ih]

/-- C8: a catalog entry with `enabled: false` never yields a hypothesis: for
every input, running the catalog with the entry present gives exactly the
hypotheses of the catalog without it, regardless of the entry's conditions —
the rule is dropped at load time. -/
theorem C8_disabled_rules_never_yield (m : List (String × Val)) (r1 r2 : List Val)
    (component vulnerability threatintel : Val) (service : Option ServiceContext)
    (h : getOr m "enabled" = Val.bool false) :
    runCatalog (r1 ++ Val.dict m :: r2) component vulnerability service threatintel =
      runCatalog (r1 ++ r2) component vulnerability service threatintel := by
  unfold runCatalog
  rw [rulesFromEntries_disabled m h r1 r2]

/-- C8 (witness): a disabled entry whose single condition `{}` would match
everything (the spec's scenario 5) yields nothing: the catalog of that entry
alone behaves as the empty catalog. -/
theorem C8_disabled_rules_never_yield_witness :
    runCatalog [Val.dict [("id", Val.str "r"), ("enabled", Val.bool false),
        ("conditions", Val.list [Val.dict []])]]
      (Val.dict []) (Val.dict []) Option.none (Val.dict []) =
      runCatalog [] (Val.dict []) (Val.dict []) Option.none (Val.dict []) ∧
    runCatalog [Val.dict [("id", Val.str "r"), ("enabled", Val.bool false),
        ("conditions", Val.list [Val.dict []])]]
      (Val.dict []) (Val.dict []) Option.none (Val.dict []) = Except.ok [] := by
  have h := C8_disabled_rules_never_yield
    [("id", Val.str "r"), ("enabled", Val.bool false), ("conditions", Val.list [Val.dict []])]
    [] [] (Val.dict []) (Val.dict []) (Val.dict []) Option.none
    (by simp [getOr, getOrD, dictGet])
  refine ⟨h, ?_⟩
  rw [show ([] : List Val) ++ Val.dict [("id", Val.str "r"), ("enabled", Val.bool false),
      ("conditions", Val.list [Val.dict []])] :: [] = [Val.dict [("id", Val.str "r"),
      ("enabled", Val.bool false), ("conditions", Val.list [Val.dict []])]] from rfl] at h
  rw [h]
  simp [runCatalog, rulesFromEntries, RuleEngine.evaluate, evalRules, eBind]
